import Mathlib

/-!
Verification of the ordering data model of the ESPA bulk-downloader web
application (`src/web/ordering/models.py`).

The Python module defines four Django models — `UserProfile`, `Order`,
`Scene`, `Configuration` — together with pure factory methods on `Order`
that build default option dictionaries and order-id strings, and a
key/value lookup on `Configuration`.

The shallow embedding below renders:
  * Python dictionaries built by successive `o[k] = v` assignments and
    `o.update(d)` merges as association lists (`PyDict`) with
    insertion-order-preserving insert/update, matching CPython dict
    semantics on the key-distinct dictionaries the module builds;
  * `%s` formatting of a non-negative integer as the standard
    decimal rendering `pyStr` (no zero padding, exactly what Python
    `str(int)` produces);
  * `datetime.datetime.now()` as an explicit `PyDatetime` argument
    carrying the wall-clock fields the code reads;
  * the Django ORM table of `Configuration` rows as an explicit list of
    records passed to `getValue`;
  * the database visible to the methods as an explicit `Database` record
    threaded through state-passing variants of each method, so that
    frame (no-side-effect) properties can be stated.
-/

/-- Value stored in a Python option dictionary in this module: the
literals appearing in `models.py` are `True`, `False`, `None`, and the
string literals `wgs84` and `near`. -/
inductive PyVal where
  | none
  | bool (b : Bool)
  | str (s : String)
deriving DecidableEq

/-- Python dictionary with string keys, as an insertion-ordered
association list whose key list is kept duplicate-free by `dictInsert`. -/
abbrev PyDict := List (String × PyVal)

/-- Embedding of Python dict assignment `d[k] = v`: replace the value at
the first occurrence of `k`, keeping its position, or append `(k, v)`
when `k` is absent (CPython insertion-order semantics). -/
def dictInsert : PyDict → String → PyVal → PyDict
  | [], k, v => [(k, v)]
  | p :: rest, k, v =>
    if p.1 = k then (k, v) :: rest else p :: dictInsert rest k v

/-- A block of statements `o = {}; o[k1] = v1; ...; o[kn] = vn` read as a
fold of `dictInsert` over the assignment list. -/
def dictFromAssignments (l : List (String × PyVal)) : PyDict :=
  l.foldl (fun d p => dictInsert d p.1 p.2) []

/-- Embedding of Python `d1.update(d2)`: write every entry of `d2` into
`d1` in order, later writes winning. -/
def dictUpdate (d1 d2 : PyDict) : PyDict :=
  d2.foldl (fun acc p => dictInsert acc p.1 p.2) d1

/-- Embedding of Python `d[k]` / `d.get(k)` as an optional lookup at the
first entry carrying key `k`. -/
def dictLookup (d : PyDict) (k : String) : Option PyVal :=
  (d.find? (fun p => p.1 == k)).map Prod.snd

/-- Key list of a dictionary, in insertion order. -/
def dictKeys (d : PyDict) : List String :=
  d.map Prod.fst

/-- Merge of a list of dictionaries into an initially empty one, the
embedding of an empty-dict initialisation followed by one `o.update(di)`
call per list element. -/
def mergeList (l : List PyDict) : PyDict :=
  l.foldl dictUpdate []

/-- Little-endian decimal digits of `n`, with explicit structural fuel
(`n` itself is always enough fuel). -/
def decDigitsAux : Nat → Nat → List Nat
  | 0, _ => []
  | _ + 1, 0 => []
  | fuel + 1, n + 1 => ((n + 1) % 10) :: decDigitsAux fuel ((n + 1) / 10)

/-- Embedding of Python `%s` formatting (equivalently `str(n)`) for the
non-negative integers produced by `datetime` fields: the plain decimal
rendering with no zero padding. -/
def pyStr (n : Nat) : String :=
  if n = 0 then ("0")
  else String.mk (((decDigitsAux n n).reverse).map (fun d => Char.ofNat (48 + d)))

/-- Wall-clock fields of a Python `datetime.datetime` value that
`Order.generate_order_id` reads. -/
structure PyDatetime where
  month : Nat
  day : Nat
  year : Nat
  hour : Nat
  minute : Nat
  second : Nat
deriving DecidableEq

/-- UserProfile model: one-to-one extension of a Django `User`
(referenced here by numeric id) with the EE contact id. -/
structure UserProfile where
  user : Nat
  contactid : String
deriving DecidableEq

/-- Order model: persistent record of a user order for processing.
Foreign keys are numeric ids; nullable columns are `Option`. -/
structure Order where
  orderid : String
  email : String
  user : Nat
  order_type : String
  order_date : Option PyDatetime
  completion_date : Option PyDatetime
  status : String
  note : Option String
  product_options : String
  order_source : String
  ee_order_id : String
deriving DecidableEq

/-- Scene model: per-scene processing/distribution record, child of an
`Order` (referenced by numeric id). -/
structure Scene where
  name : String
  note : Option String
  order : Nat
  product_distro_location : String
  product_dload_url : String
  cksum_distro_location : String
  cksum_download_url : String
  tram_order_id : Option String
  ee_unit_id : Option Int
  status : String
  processing_location : String
  completion_date : Option PyDatetime
  log_file_contents : Option String
deriving DecidableEq

/-- Configuration model: one key/value row of the configuration table. -/
structure Configuration where
  key : String
  value : String
deriving DecidableEq

/-- Order.ORDER_TYPES tuple from the source. -/
def Order.ORDER_TYPES : List (String × String) :=
  [("level2_ondemand", "Level 2 On Demand"),
   ("lpvs", "Product Validation")]

/-- Order.STATUS tuple from the source. -/
def Order.STATUS : List (String × String) :=
  [("ordered", "Ordered"),
   ("partial", "Partially Filled"),
   ("complete", "Complete")]

/-- Order.ORDER_SOURCE tuple from the source. -/
def Order.ORDER_SOURCE : List (String × String) :=
  [("espa", "ESPA"),
   ("ee", "EE")]

/-- Order.get_default_product_options: default product selection options,
every inclusion flag `False`, assigned in source order. -/
def Order.get_default_product_options : PyDict :=
  dictFromAssignments
    [("include_sourcefile", .bool false),
     ("include_source_metadata", .bool false),
     ("include_sr_toa", .bool false),
     ("include_sr_thermal", .bool false),
     ("include_sr", .bool false),
     ("include_sr_browse", .bool false),
     ("include_sr_ndvi", .bool false),
     ("include_sr_ndmi", .bool false),
     ("include_sr_nbr", .bool false),
     ("include_sr_nbr2", .bool false),
     ("include_sr_savi", .bool false),
     ("include_sr_msavi", .bool false),
     ("include_sr_evi", .bool false),
     ("include_swe", .bool false),
     ("include_sca", .bool false),
     ("include_solr_index", .bool false),
     ("include_cfmask", .bool false)]

/-- Order.get_default_projection_options: default reprojection options. -/
def Order.get_default_projection_options : PyDict :=
  dictFromAssignments
    [("reproject", .bool false),
     ("target_projection", .none),
     ("central_meridian", .none),
     ("false_easting", .none),
     ("false_northing", .none),
     ("origin_lat", .none),
     ("std_parallel_1", .none),
     ("std_parallel_2", .none),
     ("datum", PyVal.str ("wgs84")),
     ("utm_zone", .none),
     ("utm_north_south", .none)]

/-- Order.get_default_subset_options: default subsetting/framing options. -/
def Order.get_default_subset_options : PyDict :=
  dictFromAssignments
    [("image_extents", .bool false),
     ("minx", .none),
     ("miny", .none),
     ("maxx", .none),
     ("maxy", .none)]

/-- Order.get_default_resize_options: default pixel-resizing options. -/
def Order.get_default_resize_options : PyDict :=
  dictFromAssignments
    [("resize", .bool false),
     ("pixel_size", .none),
     ("pixel_size_units", .none)]

/-- Order.get_default_resample_options: default resampling options. -/
def Order.get_default_resample_options : PyDict :=
  dictFromAssignments
    [("resample_method", PyVal.str ("near"))]

/-- Order.get_default_options: `o = \x7b\x7d` followed by five
`o.update(...)` calls, one per component factory, in source order. -/
def Order.get_default_options : PyDict :=
  dictUpdate
    (dictUpdate
      (dictUpdate
        (dictUpdate
          (dictUpdate [] Order.get_default_product_options)
          Order.get_default_projection_options)
        Order.get_default_subset_options)
      Order.get_default_resize_options)
    Order.get_default_resample_options

/-- Order.get_default_ee_options: fixed default option set for orders
that originate in Earth Explorer, assigned in source order. -/
def Order.get_default_ee_options : PyDict :=
  dictFromAssignments
    [("include_sourcefile", .bool false),
     ("include_source_metadata", .bool false),
     ("include_sr_toa", .bool false),
     ("include_sr_thermal", .bool false),
     ("include_sr", .bool true),
     ("include_sr_browse", .bool false),
     ("include_sr_ndvi", .bool false),
     ("include_sr_ndmi", .bool false),
     ("include_sr_nbr", .bool false),
     ("include_sr_nbr2", .bool false),
     ("include_sr_savi", .bool false),
     ("include_sr_evi", .bool false),
     ("include_solr_index", .bool false),
     ("include_cfmask", .bool false),
     ("reproject", .bool false),
     ("resize", .bool false),
     ("image_extents", .bool false)]

/-- Order.generate_order_id: formats the template `%s-%s%s%s-%s%s%s`
with `(email, d.month, d.day, d.year, d.hour, d.minute, d.second)`
where `d` is the wall-clock datetime read at call time, passed here
explicitly. -/
def Order.generate_order_id (email : String) (d : PyDatetime) : String :=
  email ++ "-" ++ pyStr d.month ++ pyStr d.day ++ pyStr d.year ++ "-" ++
    pyStr d.hour ++ pyStr d.minute ++ pyStr d.second

/-- Order.generate_ee_order_id: formats the template `%s-%s` with
`(email, eeorder)`. -/
def Order.generate_ee_order_id (email eeorder : String) : String :=
  email ++ "-" ++ eeorder

/-- Scene.STATUS tuple from the source: the enumeration of valid status
flags a scene may have. -/
def Scene.STATUS : List (String × String) :=
  [("submitted", "Submitted"),
   ("onorder", "On Order"),
   ("oncache", "On Cache"),
   ("queued", "Queued"),
   ("processing", "Processing"),
   ("complete", "Complete"),
   ("purged", "Purged"),
   ("unavailable", "Unavailable"),
   ("error", "Error")]

/-- Assignment `scene.status = st`: the module defines no clean/save
hook, validator, or transition check on `Scene`, so the write is the
plain field update. -/
def Scene.setStatus (s : Scene) (st : String) : Scene :=
  ⟨s.name, s.note, s.order, s.product_distro_location, s.product_dload_url,
   s.cksum_distro_location, s.cksum_download_url, s.tram_order_id,
   s.ee_unit_id, st, s.processing_location, s.completion_date,
   s.log_file_contents⟩

/-- Configuration.getValue: filter the configuration table on the key
column and return the first value when a row matched, the empty string
otherwise (`str` applied to a stored character-field value is the value
itself). -/
def Configuration.getValue (objects : List Configuration) (key : String) : String :=
  let c := objects.filter (fun conf => conf.key == key)
  if h : 0 < c.length then (c.get ⟨0, h⟩).value else ("")

/-- Database visible to the model methods: one record list per Django
model defined in the module. -/
structure Database where
  userProfiles : List UserProfile
  orders : List Order
  scenes : List Scene
  configurations : List Configuration
deriving DecidableEq

/-- State-passing reading of `Order.generate_order_id`: the method body
reads the clock and formats a string; it mentions no model instance and
no queryset, so the translation returns the database untouched. -/
def Order.generate_order_id_db (db : Database) (email : String)
    (now : PyDatetime) : String × Database :=
  (Order.generate_order_id email now, db)

/-- State-passing reading of `Order.generate_ee_order_id`: the body is a
single pure format expression, so the translation returns the database
untouched. -/
def Order.generate_ee_order_id_db (db : Database) (email eeorder : String) :
    String × Database :=
  (Order.generate_ee_order_id email eeorder, db)

/-- State-passing reading of `Order.get_default_options`: the body builds
a fresh local dictionary from literals and returns it, touching no stored
record. -/
def Order.get_default_options_db (db : Database) : PyDict × Database :=
  (Order.get_default_options, db)

/-- State-passing reading of `Order.get_default_ee_options`: the body
builds a fresh local dictionary from literals and returns it, touching no
stored record. -/
def Order.get_default_ee_options_db (db : Database) : PyDict × Database :=
  (Order.get_default_ee_options, db)

/-- The five component default dictionaries merged by
`Order.get_default_options`, in source merge order. -/
def espaComponents : List PyDict :=
  [Order.get_default_product_options,
   Order.get_default_projection_options,
   Order.get_default_subset_options,
   Order.get_default_resize_options,
   Order.get_default_resample_options]

/-- Two dictionaries have no key in common. -/
def dictDisjoint (d1 d2 : PyDict) : Prop :=
  ∀ k ∈ dictKeys d1, k ∉ dictKeys d2

instance (d1 d2 : PyDict) : Decidable (dictDisjoint d1 d2) := by
  unfold dictDisjoint; infer_instance

/-- Zero-pad `pyStr n` on the left to width two: what a fixed two-digit
rendering of an hour, minute, or second field would produce. -/
def pad2 (n : Nat) : String :=
  if n < 10 then ("0") ++ pyStr n else pyStr n

/-- Result of the first option that is set, else the second: the shape of
a lookup through a dictionary merge. -/
def optionFallback (a b : Option PyVal) : Option PyVal :=
  match a with
  | some v => some v
  | Option.none => b

/-- Lookup through a whole merge list: later dictionaries shadow earlier
ones. -/
def lookupChain (l : List PyDict) (k : String) : Option PyVal :=
  l.foldl (fun acc d => optionFallback (dictLookup d k) acc) Option.none

/-- All values found for a key across a list of dictionaries, in list
order. -/
def lookupHits (l : List PyDict) (k : String) : List PyVal :=
  l.filterMap (fun d => dictLookup d k)

/-- With fuel at least `n`, a number below `10 ^ j` has at most `j`
decimal digits. -/
theorem decDigitsAux_length_le (fuel : Nat) :
    ∀ n j, n ≤ fuel → n < 10 ^ j → (decDigitsAux fuel n).length ≤ j := by
  induction fuel with
  | zero =>
    intro n j h1 h2
    simp [decDigitsAux]
  | succ fuel ih =>
    intro n j h1 h2
    cases n with
    | zero => simp [decDigitsAux]
    | succ m =>
      cases j with
      | zero =>
        rw [pow_zero] at h2
        omega
      | succ i =>
        have hfuel : (m + 1) / 10 ≤ fuel := by
          have hd := Nat.div_lt_self (Nat.succ_pos m) (by omega : 1 < 10)
          omega
        have hlt : (m + 1) / 10 < 10 ^ i := by
          rw [Nat.div_lt_iff_lt_mul (by omega : 0 < 10)]
          have hpow : (10 : Nat) ^ (i + 1) = 10 ^ i * 10 := pow_succ 10 i
          omega
        have hrec := ih ((m + 1) / 10) i hfuel hlt
        simp only [decDigitsAux, List.length_cons]
        omega

/-- With fuel at least `n`, a number of at least `10 ^ j` has more than
`j` decimal digits. -/
theorem lt_decDigitsAux_length (fuel : Nat) :
    ∀ n j, n ≤ fuel → 10 ^ j ≤ n → j < (decDigitsAux fuel n).length := by
  induction fuel with
  | zero =>
    intro n j h1 h2
    have hpos : 0 < 10 ^ j := pow_pos (by omega) j
    omega
  | succ fuel ih =>
    intro n j h1 h2
    cases n with
    | zero =>
      have hpos : 0 < 10 ^ j := pow_pos (by omega) j
      omega
    | succ m =>
      cases j with
      | zero => simp [decDigitsAux]
      | succ i =>
        have hfuel : (m + 1) / 10 ≤ fuel := by
          have hd := Nat.div_lt_self (Nat.succ_pos m) (by omega : 1 < 10)
          omega
        have hge : 10 ^ i ≤ (m + 1) / 10 := by
          rw [Nat.le_div_iff_mul_le (by omega : 0 < 10)]
          have hpow : (10 : Nat) ^ (i + 1) = 10 ^ i * 10 := pow_succ 10 i
          omega
        have hrec := ih ((m + 1) / 10) i hfuel hge
        simp only [decDigitsAux, List.length_cons]
        omega

/-- Every entry produced by `decDigitsAux` is a decimal digit. -/
theorem decDigitsAux_lt_ten (fuel : Nat) :
    ∀ n d, d ∈ decDigitsAux fuel n → d < 10 := by
  induction fuel with
  | zero =>
    intro n d hd
    simp [decDigitsAux] at hd
  | succ fuel ih =>
    intro n d hd
    cases n with
    | zero => simp [decDigitsAux] at hd
    | succ m =>
      simp only [decDigitsAux, List.mem_cons] at hd
      rcases hd with h | h
      · subst h
        exact Nat.mod_lt _ (by omega)
      · exact ih _ _ h

/-- The decimal rendering of any natural number is nonempty. -/
theorem pyStr_length_pos (n : Nat) : 1 ≤ (pyStr n).length := by
  by_cases h0 : n = 0
  · subst h0
    decide
  · unfold pyStr
    rw [if_neg h0]
    simp only [String.length_mk, List.length_map, List.length_reverse]
    have h1 : 10 ^ 0 ≤ n := by
      rw [pow_zero]
      omega
    have := lt_decDigitsAux_length n n 0 le_rfl h1
    omega

/-- A number below `10 ^ j` (with `j` positive) renders to at most `j`
characters. -/
theorem pyStr_length_le (n j : Nat) (hj : 0 < j) (h : n < 10 ^ j) :
    (pyStr n).length ≤ j := by
  by_cases h0 : n = 0
  · subst h0
    have h1 : (pyStr 0).length = 1 := by decide
    omega
  · unfold pyStr
    rw [if_neg h0]
    simp only [String.length_mk, List.length_map, List.length_reverse]
    exact decDigitsAux_length_le n n j le_rfl h

/-- A number of at least `10 ^ j` renders to more than `j` characters. -/
theorem lt_pyStr_length (n j : Nat) (h : 10 ^ j ≤ n) :
    j < (pyStr n).length := by
  have h0 : n ≠ 0 := by
    have hpos : 0 < 10 ^ j := pow_pos (by omega) j
    omega
  unfold pyStr
  rw [if_neg h0]
  simp only [String.length_mk, List.length_map, List.length_reverse]
  exact lt_decDigitsAux_length n n j le_rfl h

/-- Decimal digit offsets map to digit characters. -/
theorem digitChar_isDigit : ∀ d, d < 10 → (Char.ofNat (48 + d)).isDigit = true := by
  decide

/-- Every character of a decimal rendering is a digit character. -/
theorem pyStr_isDigit (n : Nat) : ∀ c ∈ (pyStr n).data, c.isDigit = true := by
  intro c hc
  by_cases h0 : n = 0
  · subst h0
    have hc2 : c ∈ [Char.ofNat 48] := hc
    have : c = Char.ofNat 48 := List.mem_singleton.mp hc2
    subst this
    decide
  · unfold pyStr at hc
    rw [if_neg h0] at hc
    have hc2 : c ∈ ((decDigitsAux n n).reverse).map (fun d => Char.ofNat (48 + d)) := hc
    rcases List.mem_map.mp hc2 with ⟨d, hd, rfl⟩
    exact digitChar_isDigit d (decDigitsAux_lt_ten n n d (List.mem_reverse.mp hd))

/-- Lookup in a nonempty dictionary inspects the head entry first. -/
theorem dictLookup_cons (q : String × PyVal) (rest : PyDict) (k : String) :
    dictLookup (q :: rest) k = if q.1 = k then some q.2 else dictLookup rest k := by
  unfold dictLookup
  by_cases h : q.1 = k
  · rw [List.find?_cons_of_pos rest (by simpa using h), if_pos h]
    rfl
  · rw [List.find?_cons_of_neg rest (by simpa using h), if_neg h]

/-- Lookup after a single assignment: the assigned key now maps to the
assigned value and every other key is untouched. -/
theorem dictLookup_dictInsert (d : PyDict) (k k2 : String) (v : PyVal) :
    dictLookup (dictInsert d k v) k2 =
      if k = k2 then some v else dictLookup d k2 := by
  induction d with
  | nil => exact dictLookup_cons (k, v) [] k2
  | cons q rest ih =>
    by_cases hq : q.1 = k
    · simp only [dictInsert, if_pos hq, dictLookup_cons]
      by_cases h2 : k = k2
      · simp [h2]
      · have hq2 : ¬(q.1 = k2) := by
          rw [hq]
          exact h2
        simp [h2, hq2]
    · simp only [dictInsert, if_neg hq, dictLookup_cons, ih]
      by_cases hq2 : q.1 = k2
      · have hk2 : ¬(k = k2) := by
          rw [← hq2]
          intro hh
          exact hq hh.symm
        simp [hq2, hk2]
      · simp [hq2]

/-- A key outside the key list is not found. -/
theorem dictLookup_eq_none (d : PyDict) (k : String) (h : k ∉ dictKeys d) :
    dictLookup d k = Option.none := by
  have hfind : List.find? (fun p => p.1 == k) d = Option.none :=
    List.find?_eq_none.mpr
      (fun p hp hb => h (List.mem_map.mpr ⟨p, hp, by simpa using hb⟩))
  simp [dictLookup, hfind]

/-- A found key is in the key list. -/
theorem mem_dictKeys_of_lookup (d : PyDict) (k : String) (v : PyVal)
    (h : dictLookup d k = some v) : k ∈ dictKeys d := by
  by_contra hk
  rw [dictLookup_eq_none d k hk] at h
  exact Option.noConfusion h

/-- Lookup through an update: entries of the updating dictionary win,
provided its keys are duplicate-free. -/
theorem dictLookup_dictUpdate (d2 : PyDict) :
    ∀ (d1 : PyDict) (k : String), (dictKeys d2).Nodup →
      dictLookup (dictUpdate d1 d2) k =
        optionFallback (dictLookup d2 k) (dictLookup d1 k) := by
  induction d2 with
  | nil =>
    intro d1 k _
    simp [dictUpdate, dictLookup, optionFallback]
  | cons q rest ih =>
    intro d1 k hnd
    have hnd2 : q.1 ∉ dictKeys rest ∧ (dictKeys rest).Nodup := by
      simpa [dictKeys, List.nodup_cons] using hnd
    have hstep : dictUpdate d1 (q :: rest) = dictUpdate (dictInsert d1 q.1 q.2) rest := rfl
    rw [hstep, ih (dictInsert d1 q.1 q.2) k hnd2.2, dictLookup_dictInsert,
      dictLookup_cons]
    by_cases hq : q.1 = k
    · have hrest : dictLookup rest k = Option.none := by
        apply dictLookup_eq_none
        rw [← hq]
        exact hnd2.1
      simp [hq, hrest, optionFallback]
    · simp [hq, optionFallback]

/-- Lookup through a left fold of updates, rephrased as a fold over the
individual lookups. -/
theorem dictLookup_foldl_dictUpdate (l : List PyDict) :
    ∀ (d0 : PyDict) (k : String), (∀ d ∈ l, (dictKeys d).Nodup) →
      dictLookup (l.foldl dictUpdate d0) k =
        l.foldl (fun acc d => optionFallback (dictLookup d k) acc)
          (dictLookup d0 k) := by
  induction l with
  | nil =>
    intro d0 k _
    rfl
  | cons d rest ih =>
    intro d0 k h
    have h1 := h d (List.mem_cons_self d rest)
    have h2 : ∀ d2 ∈ rest, (dictKeys d2).Nodup :=
      fun d2 hd2 => h d2 (List.mem_cons_of_mem d hd2)
    simp only [List.foldl_cons]
    rw [ih (dictUpdate d0 d) k h2, dictLookup_dictUpdate d d0 k h1]

/-- Lookup in a merge of key-duplicate-free dictionaries is the chained
lookup. -/
theorem dictLookup_mergeList (l : List PyDict) (k : String)
    (h : ∀ d ∈ l, (dictKeys d).Nodup) :
    dictLookup (mergeList l) k = lookupChain l k := by
  unfold mergeList lookupChain
  rw [dictLookup_foldl_dictUpdate l [] k h]
  rfl

/-- When no dictionary in the list defines the key, the chained lookup
returns its initial accumulator. -/
theorem lookupChain_eq_init (l : List PyDict) (k : String) :
    ∀ init, (∀ d ∈ l, dictLookup d k = Option.none) →
      l.foldl (fun acc d => optionFallback (dictLookup d k) acc) init = init := by
  induction l with
  | nil =>
    intro init _
    rfl
  | cons d rest ih =>
    intro init h
    simp only [List.foldl_cons]
    rw [h d (List.mem_cons_self d rest)]
    exact ih init (fun d2 hd2 => h d2 (List.mem_cons_of_mem d hd2))

/-- When the hits across the list are exactly one value, the chained
lookup returns it whatever the initial accumulator. -/
theorem lookupChain_eq_some (l : List PyDict) (k : String) (v : PyVal) :
    ∀ init, lookupHits l k = [v] →
      l.foldl (fun acc d => optionFallback (dictLookup d k) acc) init = some v := by
  induction l with
  | nil =>
    intro init h
    exact absurd h (by simp [lookupHits])
  | cons d rest ih =>
    intro init h
    simp only [List.foldl_cons]
    cases hd : dictLookup d k with
    | none =>
      simp only [lookupHits, List.filterMap_cons, hd] at h
      exact ih init h
    | some w =>
      simp only [lookupHits, List.filterMap_cons, hd] at h
      have hw : w = v := (List.cons_eq_cons.mp h).1
      have hrest : ∀ d2 ∈ rest, dictLookup d2 k = Option.none :=
        List.filterMap_eq_nil_iff.mp (by simpa using (List.cons_eq_cons.mp h).2)
      rw [hw]
      exact lookupChain_eq_init rest k (optionFallback (some v) init) hrest

/-- When a dictionary of a pairwise key-disjoint list defines the key,
the hits across the list are exactly its value. -/
theorem lookupHits_eq_singleton (l : List PyDict) (k : String) (v : PyVal)
    (d : PyDict) :
    l.Pairwise dictDisjoint → d ∈ l → dictLookup d k = some v →
      lookupHits l k = [v] := by
  induction l with
  | nil =>
    intro _ hm _
    exact absurd hm (List.not_mem_nil d)
  | cons d1 rest ih =>
    intro hp hm hv
    rw [List.pairwise_cons] at hp
    rcases List.mem_cons.mp hm with heq | hm2
    · subst heq
      have hkd : k ∈ dictKeys d := mem_dictKeys_of_lookup d k v hv
      have hrest : ∀ d2 ∈ rest, dictLookup d2 k = Option.none :=
        fun d2 hd2 => dictLookup_eq_none d2 k (hp.1 d2 hd2 k hkd)
      simp only [lookupHits, List.filterMap_cons, hv]
      rw [List.filterMap_eq_nil_iff.mpr hrest]
    · have hd1 : dictLookup d1 k = Option.none := by
        apply dictLookup_eq_none
        intro hk1
        exact (hp.1 d hm2 k hk1) (mem_dictKeys_of_lookup d k v hv)
      simp only [lookupHits, List.filterMap_cons, hd1]
      exact ih hp.2 hm2 hv

/-- Across a pairwise key-disjoint list at most one dictionary defines
any key. -/
theorem lookupHits_length_le_one (l : List PyDict) (k : String) :
    l.Pairwise dictDisjoint → (lookupHits l k).length ≤ 1 := by
  induction l with
  | nil =>
    intro _
    simp [lookupHits]
  | cons d rest ih =>
    intro hp
    rw [List.pairwise_cons] at hp
    cases hd : dictLookup d k with
    | none =>
      simp only [lookupHits, List.filterMap_cons, hd]
      exact ih hp.2
    | some v =>
      have hkd : k ∈ dictKeys d := mem_dictKeys_of_lookup d k v hd
      have hrest : ∀ d2 ∈ rest, dictLookup d2 k = Option.none :=
        fun d2 hd2 => dictLookup_eq_none d2 k (hp.1 d2 hd2 k hkd)
      simp only [lookupHits, List.filterMap_cons, hd]
      rw [List.filterMap_eq_nil_iff.mpr hrest]
      simp

/-- Merging any permutation of the five espa component dictionaries
yields the same mapping as merging them in source order. -/
theorem mergeList_perm_lookup (l : List PyDict)
    (hperm : l.Perm espaComponents) (k : String) :
    dictLookup (mergeList l) k = dictLookup (mergeList espaComponents) k := by
  have hnodupE : ∀ d ∈ espaComponents, (dictKeys d).Nodup := by decide
  have hnodupL : ∀ d ∈ l, (dictKeys d).Nodup :=
    fun d hd => hnodupE d (hperm.subset hd)
  have hpairE : espaComponents.Pairwise dictDisjoint := by decide
  rw [dictLookup_mergeList l k hnodupL,
    dictLookup_mergeList espaComponents k hnodupE]
  have hh : (lookupHits l k).Perm (lookupHits espaComponents k) :=
    hperm.filterMap _
  have hlen := lookupHits_length_le_one espaComponents k hpairE
  cases hesp : lookupHits espaComponents k with
  | nil =>
    rw [hesp] at hh
    have hl : lookupHits l k = [] := List.Perm.eq_nil hh
    have hnl : ∀ d ∈ l, dictLookup d k = Option.none :=
      List.filterMap_eq_nil_iff.mp hl
    have hne : ∀ d ∈ espaComponents, dictLookup d k = Option.none :=
      List.filterMap_eq_nil_iff.mp hesp
    unfold lookupChain
    rw [lookupChain_eq_init l k Option.none hnl,
      lookupChain_eq_init espaComponents k Option.none hne]
  | cons v tail =>
    rw [hesp] at hh hlen
    have htail : tail = [] := by
      cases tail with
      | nil => rfl
      | cons a b => simp at hlen
    subst htail
    have hl : lookupHits l k = [v] := List.perm_singleton.mp hh
    unfold lookupChain
    rw [lookupChain_eq_some l k v Option.none hl,
      lookupChain_eq_some espaComponents k v Option.none hesp]

/-- Claim C1 as stated: generate_order_id renders the email, then month
and day as one-or-two-digit fields and a four-digit year, then hour,
minute and second as fixed two-digit zero-padded fields. -/
def orderIdFixedWidthTimeClaim : Prop :=
  ∀ (email : String) (d : PyDatetime),
    1 ≤ d.month → d.month ≤ 12 → 1 ≤ d.day → d.day ≤ 31 →
    1000 ≤ d.year → d.year ≤ 9999 →
    d.hour ≤ 23 → d.minute ≤ 59 → d.second ≤ 59 →
    Order.generate_order_id email d =
      email ++ "-" ++ pyStr d.month ++ pyStr d.day ++ pyStr d.year ++ "-" ++
        pad2 d.hour ++ pad2 d.minute ++ pad2 d.second

/-- C1, counterexample: at 05:03:07 on 2014-01-02 the generated id ends
in -537, not in the fixed two-digit -050307, so hour, minute and second
are not rendered as fixed two-digit fields. -/
theorem generate_order_id_not_fixed_width : ¬ orderIdFixedWidthTimeClaim := by
  intro h
  have h2 := h ("a") ⟨1, 2, 2014, 5, 3, 7⟩ (by decide) (by decide) (by decide)
    (by decide) (by decide) (by decide) (by decide) (by decide) (by decide)
  exact absurd h2 (by decide)

/-- C1 (amended): generate_order_id produces the email, a dash, the
unpadded decimal month, day and year, a dash, then the unpadded decimal
hour, minute and second; month, day, hour, minute and second each render
to one or two digit characters and the year to four, so the id matches
email-M(1,2)D(1,2)YYYY-H(1,2)M(1,2)S(1,2) with no zero padding. -/
theorem generate_order_id_format (email : String) (d : PyDatetime)
    (hm1 : 1 ≤ d.month) (hm2 : d.month ≤ 12)
    (hd1 : 1 ≤ d.day) (hd2 : d.day ≤ 31)
    (hy1 : 1000 ≤ d.year) (hy2 : d.year ≤ 9999)
    (hh2 : d.hour ≤ 23) (hmi : d.minute ≤ 59) (hs : d.second ≤ 59) :
    Order.generate_order_id email d =
      email ++ "-" ++ pyStr d.month ++ pyStr d.day ++ pyStr d.year ++ "-" ++
        pyStr d.hour ++ pyStr d.minute ++ pyStr d.second ∧
    1 ≤ (pyStr d.month).length ∧ (pyStr d.month).length ≤ 2 ∧
    1 ≤ (pyStr d.day).length ∧ (pyStr d.day).length ≤ 2 ∧
    (pyStr d.year).length = 4 ∧
    1 ≤ (pyStr d.hour).length ∧ (pyStr d.hour).length ≤ 2 ∧
    1 ≤ (pyStr d.minute).length ∧ (pyStr d.minute).length ≤ 2 ∧
    1 ≤ (pyStr d.second).length ∧ (pyStr d.second).length ≤ 2 ∧
    (∀ c ∈ (pyStr d.month).data, c.isDigit = true) ∧
    (∀ c ∈ (pyStr d.day).data, c.isDigit = true) ∧
    (∀ c ∈ (pyStr d.year).data, c.isDigit = true) ∧
    (∀ c ∈ (pyStr d.hour).data, c.isDigit = true) ∧
    (∀ c ∈ (pyStr d.minute).data, c.isDigit = true) ∧
    (∀ c ∈ (pyStr d.second).data, c.isDigit = true) := by
  have p100 : (10 : Nat) ^ 2 = 100 := by norm_num
  have p1000 : (10 : Nat) ^ 3 = 1000 := by norm_num
  have p10000 : (10 : Nat) ^ 4 = 10000 := by norm_num
  refine ⟨rfl, pyStr_length_pos d.month,
    pyStr_length_le d.month 2 (by omega) (by omega),
    pyStr_length_pos d.day, pyStr_length_le d.day 2 (by omega) (by omega),
    ?_,
    pyStr_length_pos d.hour, pyStr_length_le d.hour 2 (by omega) (by omega),
    pyStr_length_pos d.minute, pyStr_length_le d.minute 2 (by omega) (by omega),
    pyStr_length_pos d.second, pyStr_length_le d.second 2 (by omega) (by omega),
    pyStr_isDigit d.month, pyStr_isDigit d.day, pyStr_isDigit d.year,
    pyStr_isDigit d.hour, pyStr_isDigit d.minute, pyStr_isDigit d.second⟩
  have hle := pyStr_length_le d.year 4 (by omega) (by omega)
  have hlt := lt_pyStr_length d.year 3 (by omega)
  omega

/-- Witness for the amended C1 theorem at 2014-01-02 05:03:07. -/
theorem generate_order_id_format_witness :
    Order.generate_order_id ("a") ⟨1, 2, 2014, 5, 3, 7⟩ =
      ("a") ++ "-" ++ pyStr 1 ++ pyStr 2 ++ pyStr 2014 ++ "-" ++
        pyStr 5 ++ pyStr 3 ++ pyStr 7 :=
  (generate_order_id_format ("a") ⟨1, 2, 2014, 5, 3, 7⟩ (by decide) (by decide)
    (by decide) (by decide) (by decide) (by decide) (by decide) (by decide)
    (by decide)).1

/-- Claim C2 as stated: the EE defaults set include_sr true and map every
other product-inclusion flag of the espa product defaults to false; the
espa product defaults map every flag to false. -/
def eeDefaultsCoverAllProductFlagsClaim : Prop :=
  dictLookup Order.get_default_ee_options ("include_sr") = some (.bool true) ∧
  (∀ k ∈ dictKeys Order.get_default_product_options, k ≠ "include_sr" →
    dictLookup Order.get_default_ee_options k = some (.bool false)) ∧
  (∀ k ∈ dictKeys Order.get_default_product_options,
    dictLookup Order.get_default_product_options k = some (.bool false))

/-- C2, counterexample: include_swe is a product flag of the espa
defaults, yet the EE defaults do not map it to false (they do not map it
at all). -/
theorem ee_defaults_not_cover_all_product_flags :
    ¬ eeDefaultsCoverAllProductFlagsClaim := by
  intro h
  have h2 := h.2.1 ("include_swe") (by decide) (by decide)
  exact absurd h2 (by decide)

/-- C2 (amended): the EE defaults set include_sr true and map every espa
product flag other than include_sr, include_sr_msavi, include_swe and
include_sca to false; those three flags are absent from the EE defaults;
the espa product defaults map all seventeen product flags to false. -/
theorem ee_and_espa_default_product_flags :
    dictLookup Order.get_default_ee_options ("include_sr") = some (.bool true) ∧
    (∀ k ∈ dictKeys Order.get_default_product_options,
      k ≠ "include_sr" → k ≠ "include_sr_msavi" → k ≠ "include_swe" →
      k ≠ "include_sca" →
        dictLookup Order.get_default_ee_options k = some (.bool false)) ∧
    dictLookup Order.get_default_ee_options ("include_sr_msavi") = Option.none ∧
    dictLookup Order.get_default_ee_options ("include_swe") = Option.none ∧
    dictLookup Order.get_default_ee_options ("include_sca") = Option.none ∧
    (∀ k ∈ dictKeys Order.get_default_product_options,
      dictLookup Order.get_default_product_options k = some (.bool false)) := by
  decide

/-- Witness: the amended C2 theorem applied to include_sourcefile. -/
theorem ee_and_espa_default_product_flags_witness :
    dictLookup Order.get_default_ee_options ("include_sourcefile") =
      some (.bool false) :=
  ee_and_espa_default_product_flags.2.1 ("include_sourcefile") (by decide)
    (by decide) (by decide) (by decide) (by decide)

/-- C3: generate_ee_order_id is the concatenation email-eeorder, is
injective in eeorder for a fixed email, and is deterministic: equal
arguments give equal order ids. -/
theorem generate_ee_order_id_spec (email o1 o2 e3 o3 : String)
    (hcollide : Order.generate_ee_order_id email o1 =
      Order.generate_ee_order_id email o2)
    (he : email = e3) (ho : o1 = o3) :
    Order.generate_ee_order_id email o1 = email ++ "-" ++ o1 ∧
    o1 = o2 ∧
    Order.generate_ee_order_id email o1 = Order.generate_ee_order_id e3 o3 := by
  refine ⟨rfl, ?_, by rw [he, ho]⟩
  have hd := congrArg String.data hcollide
  simp only [Order.generate_ee_order_id, String.data_append] at hd
  exact String.ext (List.append_cancel_left hd)

/-- Witness: C3 at concrete strings. -/
theorem generate_ee_order_id_spec_witness :
    Order.generate_ee_order_id ("u@x") ("0123456789") =
      ("u@x") ++ "-" ++ ("0123456789") ∧
    ("0123456789" : String) = "0123456789" ∧
    Order.generate_ee_order_id ("u@x") ("0123456789") =
      Order.generate_ee_order_id ("u@x") ("0123456789") :=
  generate_ee_order_id_spec ("u@x") ("0123456789") ("0123456789") ("u@x")
    ("0123456789") rfl rfl rfl

/-- C4: Configuration.getValue is total, so a missing key raises nothing:
it returns the empty string when no row carries the key, and the value of
the unique matching row when exactly one does. -/
theorem Configuration_getValue_spec (objects : List Configuration) (k : String) :
    ((∀ c ∈ objects, c.key ≠ k) → Configuration.getValue objects k = "") ∧
    (∀ r, objects.filter (fun c => c.key == k) = [r] →
      Configuration.getValue objects k = r.value) := by
  constructor
  · intro hnone
    have hfilter : objects.filter (fun c => c.key == k) = [] := by
      rw [List.filter_eq_nil_iff]
      intro c hc
      simpa using hnone c hc
    unfold Configuration.getValue
    simp [hfilter]
  · intro r hr
    unfold Configuration.getValue
    simp [hr]

/-- Witness: C4 on a one-row configuration table. -/
theorem Configuration_getValue_spec_witness :
    Configuration.getValue [⟨"ledaps.anc.path", "/usr/local"⟩] ("missing.key") = "" ∧
    Configuration.getValue [⟨"ledaps.anc.path", "/usr/local"⟩] ("ledaps.anc.path") =
      "/usr/local" :=
  ⟨(Configuration_getValue_spec [⟨"ledaps.anc.path", "/usr/local"⟩]
      ("missing.key")).1 (by decide),
   (Configuration_getValue_spec [⟨"ledaps.anc.path", "/usr/local"⟩]
      ("ledaps.anc.path")).2 ⟨"ledaps.anc.path", "/usr/local"⟩ (by decide)⟩

/-- C5: Scene.STATUS enumerates exactly the nine scene states, and this
layer validates no transition: writing any enumerated target status over
any enumerated current status is recorded as given, every other field
unchanged. -/
theorem scene_status_values_and_no_transition_validation (s : Scene)
    (st : String)
    (hcur : s.status ∈ Scene.STATUS.map Prod.fst)
    (hnew : st ∈ Scene.STATUS.map Prod.fst) :
    Scene.STATUS.map Prod.fst =
      ["submitted", "onorder", "oncache", "queued", "processing",
       "complete", "purged", "unavailable", "error"] ∧
    (Scene.setStatus s st).status = st ∧
    (Scene.setStatus s st).name = s.name ∧
    (Scene.setStatus s st).note = s.note ∧
    (Scene.setStatus s st).order = s.order ∧
    (Scene.setStatus s st).product_distro_location = s.product_distro_location ∧
    (Scene.setStatus s st).product_dload_url = s.product_dload_url ∧
    (Scene.setStatus s st).cksum_distro_location = s.cksum_distro_location ∧
    (Scene.setStatus s st).cksum_download_url = s.cksum_download_url ∧
    (Scene.setStatus s st).tram_order_id = s.tram_order_id ∧
    (Scene.setStatus s st).ee_unit_id = s.ee_unit_id ∧
    (Scene.setStatus s st).processing_location = s.processing_location ∧
    (Scene.setStatus s st).completion_date = s.completion_date ∧
    (Scene.setStatus s st).log_file_contents = s.log_file_contents :=
  ⟨by decide, rfl, rfl, rfl, rfl, rfl, rfl, rfl, rfl, rfl, rfl, rfl, rfl, rfl⟩

/-- Witness: a direct submitted-to-complete write is recorded. -/
theorem scene_status_no_transition_validation_witness :
    (Scene.setStatus
      ⟨"LT50290302007001PAC01", Option.none, 7, "", "", "", "", Option.none,
        Option.none, "submitted", "", Option.none, Option.none⟩
      ("complete")).status = "complete" :=
  (scene_status_values_and_no_transition_validation
    ⟨"LT50290302007001PAC01", Option.none, 7, "", "", "", "", Option.none,
      Option.none, "submitted", "", Option.none, Option.none⟩
    ("complete") (by decide) (by decide)).2.1

/-- C6: an order sourced from EE with no explicitly supplied options gets
defaults with include_sr true, reproject false and resize false. -/
theorem ee_default_options_scenario :
    dictLookup Order.get_default_ee_options ("include_sr") = some (.bool true) ∧
    dictLookup Order.get_default_ee_options ("reproject") = some (.bool false) ∧
    dictLookup Order.get_default_ee_options ("resize") = some (.bool false) := by
  decide

/-- C7: the public Order methods are effect free: threaded through the
visible database they leave every stored UserProfile, Order, Scene and
Configuration record unchanged, and the factories return the static
default dictionaries. -/
theorem order_methods_effect_free (db : Database) (email eeorder : String)
    (now : PyDatetime) :
    (Order.generate_order_id_db db email now).2 = db ∧
    (Order.generate_ee_order_id_db db email eeorder).2 = db ∧
    (Order.get_default_options_db db).2 = db ∧
    (Order.get_default_ee_options_db db).2 = db ∧
    (Order.generate_order_id_db db email now).1 =
      Order.generate_order_id email now ∧
    (Order.generate_ee_order_id_db db email eeorder).1 =
      Order.generate_ee_order_id email eeorder ∧
    (Order.get_default_options_db db).1 = Order.get_default_options ∧
    (Order.get_default_ee_options_db db).1 = Order.get_default_ee_options :=
  ⟨rfl, rfl, rfl, rfl, rfl, rfl, rfl, rfl⟩

/-- C8: every EE default key occurs in the merged espa defaults but not
conversely, and the EE defaults assign nothing to include_swe,
include_sca or include_sr_msavi although all three are espa product
flags. -/
theorem ee_options_keys_proper_subset :
    (∀ k ∈ dictKeys Order.get_default_ee_options,
      k ∈ dictKeys Order.get_default_options) ∧
    (∃ k ∈ dictKeys Order.get_default_options,
      k ∉ dictKeys Order.get_default_ee_options) ∧
    "include_swe" ∈ dictKeys Order.get_default_product_options ∧
    "include_sca" ∈ dictKeys Order.get_default_product_options ∧
    "include_sr_msavi" ∈ dictKeys Order.get_default_product_options ∧
    dictLookup Order.get_default_ee_options ("include_swe") = Option.none ∧
    dictLookup Order.get_default_ee_options ("include_sca") = Option.none ∧
    dictLookup Order.get_default_ee_options ("include_sr_msavi") = Option.none := by
  decide

/-- Witness: include_sr, an EE default key, is a merged espa default key. -/
theorem ee_options_keys_proper_subset_witness :
    "include_sr" ∈ dictKeys Order.get_default_options :=
  ee_options_keys_proper_subset.1 ("include_sr") (by decide)

/-- C9: the five component default dictionaries are pairwise key
disjoint; the merged espa defaults equal their ordered concatenation
(their disjoint union); the merged value at any key defined by some
component is that unique component value; and merging the components in
any order yields the same mapping. -/
theorem default_options_disjoint_union :
    espaComponents.Pairwise dictDisjoint ∧
    Order.get_default_options = mergeList espaComponents ∧
    Order.get_default_options =
      Order.get_default_product_options ++ Order.get_default_projection_options ++
        Order.get_default_subset_options ++ Order.get_default_resize_options ++
        Order.get_default_resample_options ∧
    (∀ d ∈ espaComponents, ∀ k v, dictLookup d k = some v →
      dictLookup Order.get_default_options k = some v) ∧
    (∀ l, l.Perm espaComponents → ∀ k,
      dictLookup (mergeList l) k = dictLookup Order.get_default_options k) := by
  have hpair : espaComponents.Pairwise dictDisjoint := by decide
  have hnodup : ∀ d2 ∈ espaComponents, (dictKeys d2).Nodup := by decide
  have hmerge : Order.get_default_options = mergeList espaComponents := rfl
  refine ⟨hpair, hmerge, by decide, ?_, ?_⟩
  · intro d hd k v hv
    rw [hmerge, dictLookup_mergeList espaComponents k hnodup]
    have hhits := lookupHits_eq_singleton espaComponents k v d hpair hd hv
    exact lookupChain_eq_some espaComponents k v Option.none hhits
  · intro l hperm k
    rw [hmerge]
    exact mergeList_perm_lookup l hperm k

/-- Witness: merging with the product and projection defaults swapped
leaves the lookup of include_sr unchanged. -/
theorem default_options_disjoint_union_witness :
    dictLookup (mergeList
      [Order.get_default_projection_options, Order.get_default_product_options,
       Order.get_default_subset_options, Order.get_default_resize_options,
       Order.get_default_resample_options]) ("include_sr") =
      dictLookup Order.get_default_options ("include_sr") :=
  default_options_disjoint_union.2.2.2.2
    [Order.get_default_projection_options, Order.get_default_product_options,
     Order.get_default_subset_options, Order.get_default_resize_options,
     Order.get_default_resample_options]
    (List.Perm.swap Order.get_default_product_options
      Order.get_default_projection_options
      [Order.get_default_subset_options, Order.get_default_resize_options,
       Order.get_default_resample_options])
    ("include_sr")

/-- C10: getValue is total and, when several rows share the key, returns
the value of the first matching row in query order rather than raising. -/
theorem Configuration_getValue_first_match (objects : List Configuration)
    (k : String) (r : Configuration) (rest : List Configuration)
    (h : objects.filter (fun c => c.key == k) = r :: rest) :
    Configuration.getValue objects k = r.value := by
  unfold Configuration.getValue
  simp [h]

/-- Witness: with two rows sharing a key, getValue returns the first
row value. -/
theorem Configuration_getValue_first_match_witness :
    Configuration.getValue [⟨"cache.host", "one"⟩, ⟨"cache.host", "two"⟩]
      ("cache.host") = "one" :=
  Configuration_getValue_first_match
    [⟨"cache.host", "one"⟩, ⟨"cache.host", "two"⟩] ("cache.host")
    ⟨"cache.host", "one"⟩ [⟨"cache.host", "two"⟩] (by decide)
